import Mathlib

/-!
# View-management layer of `baserow` — shallow embedding

This file embeds the view configuration and query-composition engine of the
repository (source: `src/backend/src/baserow/contrib/database/api/views/views.py`)
and proves the frozen claims about it.

The repository ships only the API endpoint layer; the `ViewHandler` operations
it calls (`apply_filters`, `order_views`, `rotate_view_slug`, `create_sort`,
`create_filter`, `update_filter`, `update_view`, `get_public_view_by_slug`) and
the `ViewType` capability descriptors live outside the provided sources, so
those are modelled from the specification (each such definition carries a
doc comment starting `Modelled from the spec:`).  The public link-row field
lookup endpoint (`PublicViewLinkRowFieldLookupView.get`, lines 1168-1221 of the
source) is embedded from the source itself.  HTTP plumbing, pagination and
authentication are out of scope per the specification and are omitted.
-/

namespace Baserow

/-- Error kinds of the specification's taxonomy, as surfaced by the handler
and endpoint operations. -/
inductive ApiError where
  | viewNotFound
  | fieldNotFound
  | tableNotFound
  | viewNotInTable
  | cannotShareViewType
  | viewTypeUnsupported
  | fieldNotInTable
  | filterNotSupported
  | filterTypeUnsupportedForField
  | sortFieldNotSupported
  | sortFieldAlreadyExists
  | invalidRequest
deriving Repr, DecidableEq

/-- Capability descriptor of a registered view type (spec §3 `ViewType`):
flags `can_filter`, `can_sort`, `can_share`, `has_field_options`,
`restrict_link_row_public_view_sharing`, keyed by its type tag. -/
structure ViewTypeDescriptor where
  type : String
  can_filter : Bool
  can_sort : Bool
  can_share : Bool
  has_field_options : Bool
  restrict_link_row_public_view_sharing : Bool
deriving Repr, DecidableEq

/-- Capability descriptor of a registered field type: whether fields of this
type may be used as a sort key. -/
structure FieldTypeDescriptor where
  type : String
  sortable : Bool
deriving Repr, DecidableEq

/-- Capability descriptor of a registered filter type (spec §3 `FilterType`):
the set of field-type categories it accepts. -/
structure FilterTypeDescriptor where
  type : String
  compatible_field_types : List String
deriving Repr, DecidableEq

/-- A field of a table.  A field whose `type` tag is `"link_row"` is a link
field pointing at the table `link_row_table_id` (the `LinkRowField` content
type of the source); `primary` marks the table's primary field. -/
structure Field where
  id : Nat
  table_id : Nat
  type : String
  link_row_table_id : Nat := 0
  primary : Bool := false
deriving Repr, DecidableEq

/-- A view over one table (spec §6 layout: `View(id, table_id, type, name,
order, slug|null)`). -/
structure View where
  id : Nat
  table_id : Nat
  type : String
  name : String
  order : Nat
  slug : Option String
deriving Repr, DecidableEq

/-- Per-(view, field) display options; `hidden` fields are not exposed on the
public path. -/
structure FieldOption where
  view_id : Nat
  field_id : Nat
  hidden : Bool
  order : Nat
deriving Repr, DecidableEq

/-- A view filter (spec §6 layout: `Filter(id, view_id, field_id, type,
value)`). -/
structure ViewFilter where
  id : Nat
  view_id : Nat
  field_id : Nat
  type : String
  value : String
deriving Repr, DecidableEq

/-- A view sort (spec §6 layout: `Sort(id, view_id, field_id, direction)`);
the direction string is `"ASC"` or `"DESC"`. -/
structure ViewSort where
  id : Nat
  view_id : Nat
  field_id : Nat
  direction : String
deriving Repr, DecidableEq

/-- A stored row.  `values` maps a field id to the row's cell text; for a link
row field, `link_values` maps the field id to the list of linked target row
ids (the many-to-many relation of the source's `LinkRowField`). -/
structure Row where
  id : Nat
  table_id : Nat
  values : List (Nat × String)
  link_values : List (Nat × List Nat)
deriving Repr, DecidableEq

/-- The persisted state plus the process-wide registries (spec §4.1: read-only
at runtime). -/
structure Database where
  view_types : List ViewTypeDescriptor
  field_types : List FieldTypeDescriptor
  filter_types : List FilterTypeDescriptor
  views : List View
  fields : List Field
  field_options : List FieldOption
  filters : List ViewFilter
  sorts : List ViewSort
  rows : List Row
deriving Repr, DecidableEq

deriving instance DecidableEq for Except

/-! ## Registry and storage lookups -/

/-- `view_type_registry.get(type_tag)`: capability lookup by view type tag. -/
def getViewType (db : Database) (tag : String) : Option ViewTypeDescriptor :=
  db.view_types.find? (fun t => t.type == tag)

/-- Filter type registry lookup by tag. -/
def getFilterType (db : Database) (tag : String) : Option FilterTypeDescriptor :=
  db.filter_types.find? (fun t => t.type == tag)

/-- Whether the field type with the given tag is declared sortable. -/
def fieldTypeSortable (db : Database) (tag : String) : Bool :=
  match db.field_types.find? (fun t => t.type == tag) with
  | some t => t.sortable
  | none => false

/-- Field lookup by id. -/
def getField (db : Database) (fid : Nat) : Option Field :=
  db.fields.find? (fun f => f.id == fid)

/-- All rows of one table. -/
def rowsOfTable (db : Database) (tid : Nat) : List Row :=
  db.rows.filter (fun r => r.table_id == tid)

/-- The cell text a row stores for a field (empty when absent). -/
def valueOf (r : Row) (fid : Nat) : String :=
  match r.values.find? (fun p => p.1 == fid) with
  | some p => p.2
  | none => ""

/-- The target row ids a row stores for a link row field. -/
def linkIdsOf (r : Row) (fid : Nat) : List Nat :=
  match r.link_values.find? (fun p => p.1 == fid) with
  | some p => p.2
  | none => []

/-- Whether the field with the given id exists and is a link row field (the
source checks the field's content type against `LinkRowField`). -/
def isLinkRowField (db : Database) (fid : Nat) : Bool :=
  match getField db fid with
  | some f => f.type == "link_row"
  | none => false

/-- The id of the first primary field of a table
(`table.field_set.filter(primary=True).first()` in the source). -/
def primaryFieldId (db : Database) (tid : Nat) : Option Nat :=
  (db.fields.find? (fun f => f.table_id == tid && f.primary)).map (fun f => f.id)

/-- The primary-field value of a row of the given table (empty when the table
has no primary field). -/
def primaryValue (db : Database) (tid : Nat) (r : Row) : String :=
  match primaryFieldId db tid with
  | some fid => valueOf r fid
  | none => ""

/-- Modelled from the spec: the storage engine's `search across searchable
fields` operation, specialised to the restricted lookup model that exposes
only the primary text field — substring match on that value. -/
def searchMatches (q v : String) : Bool :=
  decide (q.toList <:+: v.toList)

/-- Whether a row of table `tid` passes the optional search narrowing. -/
def searchPasses (db : Database) (tid : Nat) (s : Option String) (r : Row) : Bool :=
  match s with
  | none => true
  | some q => searchMatches q (primaryValue db tid r)

/-- Resolve a view by public slug within a list of views. -/
def resolveBySlug (views : List View) (slug : String) : Option View :=
  views.find? (fun v => v.slug == some slug)

/-! ## Modelled handler operations -/

/-- Modelled from the spec: `FilterEvaluator.compile` — each registered filter
type compiles to a per-row predicate; two representative registered types
(`equal`, `not_equal`) compare the field's cell text with the filter value,
an unknown tag matches everything. -/
def filterMatches (f : ViewFilter) (r : Row) : Bool :=
  match f.type with
  | "equal" => valueOf r f.field_id == f.value
  | "not_equal" => !(valueOf r f.field_id == f.value)
  | _ => true

/-- Modelled from the spec: `ViewHandler.apply_filters(view, base_query)` folds
every `Filter` belonging to the view into the base query via the
`FilterEvaluator`, combined with logical AND; a view with zero filters returns
the base query unchanged. -/
def ViewHandler.apply_filters (db : Database) (view : View) (q : List Row) : List Row :=
  (db.filters.filter (fun f => f.view_id == view.id)).foldl
    (fun acc f => acc.filter (fun r => filterMatches f r)) q

/-- Modelled from the spec: `ViewHandler.get_public_view_by_slug(actor, slug)`
resolves a view by its public slug regardless of caller identity and fails
`ViewNotFound` when the slug is unknown.  (The sharing-capability check is
performed explicitly again by the caller in the embedded source endpoint.) -/
def ViewHandler.get_public_view_by_slug (db : Database) (slug : String) :
    Except ApiError View :=
  match resolveBySlug db.views slug with
  | some v => .ok v
  | none => .error .viewNotFound

/-- Insert into a list sorted by a boolean comparison. -/
def insertBy (le : α → α → Bool) (a : α) : List α → List α
  | [] => [a]
  | b :: l => if le a b then a :: b :: l else b :: insertBy le a l

/-- Insertion sort by a boolean comparison (executable, kernel-reducible). -/
def sortBy (le : α → α → Bool) : List α → List α
  | [] => []
  | a :: l => insertBy le a (sortBy le l)

/-- Modelled from the spec: `view_type.get_visible_field_options_in_order(view)`
— the view's non-hidden field options, ordered by their `order` attribute. -/
def get_visible_field_options_in_order (db : Database) (view : View) : List FieldOption :=
  sortBy (fun a b => a.order ≤ b.order)
    (db.field_options.filter (fun o => o.view_id == view.id && !o.hidden))

/-- The `queryset.get(field_id=field_id, field__content_type=link_row_...)`
step of the source endpoint: among the view's visible, in-order field options,
the (unique) one for the requested field id whose field is a link row field;
returns the field itself. -/
def exposedLinkFieldOption (db : Database) (view : View) (field_id : Nat) : Option Field :=
  match (get_visible_field_options_in_order db view).find?
      (fun o => o.field_id == field_id && isLinkRowField db o.field_id) with
  | some o => getField db o.field_id
  | none => none

/-! ## The public link-row field lookup endpoint (embedded from the source) -/

/-- Embedding of `PublicViewLinkRowFieldLookupView.get` (source lines
1168-1221).  Resolves the view by slug, re-checks `can_share`, resolves the
requested field among the view's visible link row field options, builds the
target-table model restricted to the primary field, restricts the visible
target rows through the link field when the view type demands it, applies the
optional search, and serializes each remaining row as (id, primary value).
Pagination is plumbing outside this core and is omitted. -/
def PublicViewLinkRowFieldLookupView.get (db : Database) (slug : String)
    (field_id : Nat) (search : Option String) :
    Except ApiError (List (Nat × String)) :=
  match ViewHandler.get_public_view_by_slug db slug with
  | .error e => .error e
  | .ok view =>
    match getViewType db view.type with
    | none => .error .viewNotFound
    | some view_type =>
      if !view_type.can_share then .error .viewNotFound
      else
        match exposedLinkFieldOption db view field_id with
        | none => .error .fieldNotFound
        | some link_row_field =>
          let table := link_row_field.link_row_table_id
          let queryset := rowsOfTable db table
          let restricted :=
            if view_type.restrict_link_row_public_view_sharing then
              let view_queryset :=
                if view_type.can_filter then
                  ViewHandler.apply_filters db view (rowsOfTable db view.table_id)
                else
                  rowsOfTable db view.table_id
              let linked_ids := view_queryset.flatMap (fun r => linkIdsOf r link_row_field.id)
              queryset.filter (fun t => linked_ids.contains t.id)
            else queryset
          let searched := restricted.filter (fun t => searchPasses db table search t)
          .ok (searched.map (fun t => (t.id, primaryValue db table t)))

/-! ## Slug rotation (spec-modelled handler, caller embedded from
`RotateViewSlugView.post`, source lines 1107-1122) -/

/-- The views list after replacing the slug of the view with the given id. -/
def rotatedViews (views : List View) (view_id : Nat) (fresh : String) : List View :=
  views.map (fun w => if w.id == view_id then { w with slug := some fresh } else w)

/-- Modelled from the spec: `ViewHandler.rotate_view_slug(actor, view)` fails
`CannotShareViewType` if the view's type has `can_share=false`; otherwise it
replaces the slug with a new globally-unique random token atomically.  The
random token source is modelled as an explicit argument; its global uniqueness
is a hypothesis of the theorems about it. -/
def ViewHandler.rotate_view_slug (db : Database) (view_id : Nat) (fresh : String) :
    Except ApiError (List View) :=
  match db.views.find? (fun v => v.id == view_id) with
  | none => .error .viewNotFound
  | some v =>
    match getViewType db v.type with
    | none => .error .viewNotFound
    | some vt =>
      if vt.can_share then .ok (rotatedViews db.views view_id fresh)
      else .error .cannotShareViewType

/-! ## View ordering (spec-modelled handler, caller embedded from
`OrderViewsView.post`, source lines 463-477) -/

/-- Modelled from the spec: `ViewHandler.order_views(actor, table,
ordered_view_ids)` assigns position = index in the given list to each listed
view in one atomic batch, resets every view of the table omitted from the
list to position 0, and fails `ViewNotInTable` if any listed id does not
belong to the table. -/
def ViewHandler.order_views (db : Database) (table_id : Nat) (view_ids : List Nat) :
    Except ApiError (List View) :=
  if view_ids.all (fun i => db.views.any (fun v => v.id == i && v.table_id == table_id)) then
    .ok (db.views.map (fun v =>
      if v.table_id == table_id then
        match view_ids.findIdx? (fun i => i == v.id) with
        | some idx => { v with order := idx }
        | none => { v with order := 0 }
      else v))
  else .error .viewNotInTable

/-! ## Sort creation (spec-modelled handler, caller embedded from
`ViewSortingsView.post`, source lines 804-827) -/

/-- Modelled from the spec: `ViewHandler.create_sort(actor, view, field,
direction)` fails `ViewTypeUnsupported` if the view's type has
`can_sort=false`, `FieldNotInTable` if the field's table differs from the
view's table, `SortFieldNotSupported` if the field type disallows sorting, and
`SortFieldAlreadyExists` if a sort on that (view, field) pair already exists;
otherwise it appends the new sort. -/
def ViewHandler.create_sort (db : Database) (view : View) (field : Field)
    (direction : String) (new_id : Nat) : Except ApiError (List ViewSort) :=
  match getViewType db view.type with
  | none => .error .viewNotFound
  | some vt =>
    if !vt.can_sort then .error .viewTypeUnsupported
    else if field.table_id != view.table_id then .error .fieldNotInTable
    else if !fieldTypeSortable db field.type then .error .sortFieldNotSupported
    else if db.sorts.any (fun s => s.view_id == view.id && s.field_id == field.id) then
      .error .sortFieldAlreadyExists
    else .ok (db.sorts ++ [{ id := new_id, view_id := view.id, field_id := field.id,
                             direction := direction }])

/-- The (view, field) uniqueness invariant on a sort list: no two entries
target the same pair (spec §3 `Sort`). -/
def sortPairUnique (l : List ViewSort) : Prop :=
  l.Pairwise (fun a b => ¬(a.view_id = b.view_id ∧ a.field_id = b.field_id))

/-! ## Filter creation and update (spec-modelled handlers, callers embedded
from `ViewFiltersView.post` and `ViewFilterView.patch`, source lines 561-585
and 654-685) -/

/-- Modelled from the spec: the field/filter-type compatibility checks shared
by `create_filter` and `update_filter` — `FieldNotInTable` if the field's
table differs from the view's table, `FilterNotSupported` if the filter type
tag is unknown, `FilterTypeUnsupportedForField` if the filter type does not
accept the field's type category. -/
def filterCompatChecks (db : Database) (view : View) (field : Field)
    (type_tag : String) : Option ApiError :=
  if field.table_id != view.table_id then some .fieldNotInTable
  else match getFilterType db type_tag with
    | none => some .filterNotSupported
    | some ft =>
      if !ft.compatible_field_types.contains field.type then
        some .filterTypeUnsupportedForField
      else none

/-- Modelled from the spec: `ViewHandler.create_filter(actor, view, field,
filter_type_tag, value)` fails `ViewTypeUnsupported` if the view's type has
`can_filter=false`, then runs the compatibility checks, then persists. -/
def ViewHandler.create_filter (db : Database) (view : View) (field : Field)
    (type_tag value : String) (new_id : Nat) : Except ApiError (List ViewFilter) :=
  match getViewType db view.type with
  | none => .error .viewNotFound
  | some vt =>
    if !vt.can_filter then .error .viewTypeUnsupported
    else match filterCompatChecks db view field type_tag with
      | some e => .error e
      | none => .ok (db.filters ++ [{ id := new_id, view_id := view.id,
                                      field_id := field.id, type := type_tag,
                                      value := value }])

/-- The optional attributes of a filter update; `none` means "not supplied". -/
structure FilterUpdateAttrs where
  field : Option Field := none
  type : Option String := none
  value : Option String := none
deriving Repr, DecidableEq

/-- The field an updated filter will target: the newly supplied one, or else
the filter's current field. -/
def mergedFilterField (db : Database) (filt : ViewFilter) (attrs : FilterUpdateAttrs) :
    Option Field :=
  match attrs.field with
  | some f => some f
  | none => getField db filt.field_id

/-- Modelled from the spec: `ViewHandler.update_filter(actor, filter, attrs)`
re-runs the same compatibility checks against any newly supplied field, type
or value and performs a partial update in which only the supplied attributes
change. -/
def ViewHandler.update_filter (db : Database) (view : View) (filt : ViewFilter)
    (attrs : FilterUpdateAttrs) : Except ApiError ViewFilter :=
  match mergedFilterField db filt attrs with
  | none => .error .fieldNotFound
  | some f =>
    let new_type := attrs.type.getD filt.type
    match filterCompatChecks db view f new_type with
    | some e => .error e
    | none => .ok { filt with field_id := f.id, type := new_type,
                              value := attrs.value.getD filt.value }

/-! ## View update (spec-modelled handler, caller embedded from
`ViewView.patch`, source lines 361-392) -/

/-- The optional attributes of a view update; `none` means "not supplied". -/
structure ViewUpdateAttrs where
  name : Option String := none
  type : Option String := none
deriving Repr, DecidableEq

/-- Modelled from the spec: `ViewHandler.update_view(actor, view, attrs)` —
the type tag is immutable after creation, attempting to change it fails
`InvalidRequest`; otherwise the supplied attributes are applied. -/
def ViewHandler.update_view (view : View) (attrs : ViewUpdateAttrs) :
    Except ApiError View :=
  match attrs.type with
  | some t =>
    if t != view.type then .error .invalidRequest
    else .ok { view with name := attrs.name.getD view.name }
  | none => .ok { view with name := attrs.name.getD view.name }

/-! ## Concrete states used by the witnesses and counterexamples -/

/-- A grid-like view type: filterable, sortable, shareable, restricted public
link sharing. -/
def gridType : ViewTypeDescriptor :=
  { type := "grid", can_filter := true, can_sort := true, can_share := true,
    has_field_options := true, restrict_link_row_public_view_sharing := true }

/-- A form-like view type: shareable and restricted but not filterable. -/
def formType : ViewTypeDescriptor :=
  { type := "form", can_filter := false, can_sort := false, can_share := true,
    has_field_options := true, restrict_link_row_public_view_sharing := true }

/-- A view type that deliberately opts out of link-row restriction. -/
def galleryType : ViewTypeDescriptor :=
  { type := "gallery", can_filter := true, can_sort := true, can_share := true,
    has_field_options := true, restrict_link_row_public_view_sharing := false }

/-- A view type that cannot be shared at all. -/
def internalType : ViewTypeDescriptor :=
  { type := "internal", can_filter := true, can_sort := true, can_share := false,
    has_field_options := true, restrict_link_row_public_view_sharing := true }

/-- Shared grid view of table 1 with public slug `s1`. -/
def v1Ex : View :=
  { id := 1, table_id := 1, type := "grid", name := "Grid", order := 1, slug := some "s1" }

/-- Shared form view of table 1 with public slug `s2`. -/
def v2Ex : View :=
  { id := 2, table_id := 1, type := "form", name := "Form", order := 2, slug := some "s2" }

/-- Shared gallery view of table 1 with public slug `s3`. -/
def v3Ex : View :=
  { id := 3, table_id := 1, type := "gallery", name := "Gallery", order := 3,
    slug := some "s3" }

/-- View of a non-shareable type, with a slug that nevertheless resolves. -/
def v4Ex : View :=
  { id := 4, table_id := 1, type := "internal", name := "Internal", order := 4,
    slug := some "s4" }

/-- The standing example state: table 1 (fields 20 primary text, 21 text,
10 link row to table 2) with two rows, table 2 (fields 30 primary text,
31 text) with three rows, four views over table 1 and one `equal "Done"`
filter on field 21 of the grid view. -/
def dbEx : Database :=
  { view_types := [gridType, formType, galleryType, internalType],
    field_types := [{ type := "text", sortable := true },
                    { type := "link_row", sortable := false }],
    filter_types := [{ type := "equal", compatible_field_types := ["text"] },
                     { type := "not_equal", compatible_field_types := ["text"] }],
    views := [v1Ex, v2Ex, v3Ex, v4Ex],
    fields := [{ id := 20, table_id := 1, type := "text", primary := true },
               { id := 21, table_id := 1, type := "text" },
               { id := 10, table_id := 1, type := "link_row", link_row_table_id := 2 },
               { id := 30, table_id := 2, type := "text", primary := true },
               { id := 31, table_id := 2, type := "text" }],
    field_options := [{ view_id := 1, field_id := 20, hidden := false, order := 1 },
                      { view_id := 1, field_id := 10, hidden := false, order := 2 },
                      { view_id := 1, field_id := 21, hidden := true, order := 3 },
                      { view_id := 2, field_id := 10, hidden := false, order := 1 },
                      { view_id := 3, field_id := 10, hidden := false, order := 1 },
                      { view_id := 4, field_id := 10, hidden := false, order := 1 }],
    filters := [{ id := 100, view_id := 1, field_id := 21, type := "equal",
                  value := "Done" }],
    sorts := [{ id := 200, view_id := 1, field_id := 20, direction := "ASC" }],
    rows := [{ id := 501, table_id := 1, values := [(20, "A"), (21, "Done")],
               link_values := [(10, [601])] },
             { id := 502, table_id := 1, values := [(20, "B"), (21, "Open")],
               link_values := [(10, [602])] },
             { id := 601, table_id := 2, values := [(30, "X"), (31, "xx")],
               link_values := [] },
             { id := 602, table_id := 2, values := [(30, "Y"), (31, "yy")],
               link_values := [] },
             { id := 603, table_id := 2, values := [(30, "Z"), (31, "zz")],
               link_values := [] }] }

/-- A self-linking state: table 1's link field 10 points back at table 1, the
grid view filters on the non-primary field 21. -/
def dbSelfA : Database :=
  { view_types := [gridType],
    field_types := [{ type := "text", sortable := true },
                    { type := "link_row", sortable := false }],
    filter_types := [{ type := "equal", compatible_field_types := ["text"] }],
    views := [{ id := 1, table_id := 1, type := "grid", name := "Grid", order := 1,
                slug := some "s" }],
    fields := [{ id := 20, table_id := 1, type := "text", primary := true },
               { id := 21, table_id := 1, type := "text" },
               { id := 10, table_id := 1, type := "link_row", link_row_table_id := 1 }],
    field_options := [{ view_id := 1, field_id := 10, hidden := false, order := 1 },
                      { view_id := 1, field_id := 20, hidden := false, order := 2 }],
    filters := [{ id := 100, view_id := 1, field_id := 21, type := "equal",
                  value := "Done" }],
    sorts := [],
    rows := [{ id := 1, table_id := 1, values := [(20, "A"), (21, "Done")],
               link_values := [(10, [2])] },
             { id := 2, table_id := 1, values := [(20, "B"), (21, "Done")],
               link_values := [(10, [])] }] }

/-- `dbSelfA` with row 1's non-primary field 21 changed from `Done` to `Open`;
ids, table ids, link values and primary-field values are untouched. -/
def dbSelfB : Database :=
  { dbSelfA with
    rows := [{ id := 1, table_id := 1, values := [(20, "A"), (21, "Open")],
               link_values := [(10, [2])] },
             { id := 2, table_id := 1, values := [(20, "B"), (21, "Done")],
               link_values := [(10, [])] }] }

/-- The table-1 text field 21 of the example state. -/
def field21Ex : Field := { id := 21, table_id := 1, type := "text" }

/-- The single stored filter of the example state (on the grid view). -/
def filtEx : ViewFilter :=
  { id := 100, view_id := 1, field_id := 21, type := "equal", value := "Done" }

/-- A partial filter update supplying only a new filter type. -/
def attrsEx : FilterUpdateAttrs := { type := some "not_equal" }

/-- The result of applying `attrsEx` to `filtEx`. -/
def filt2Ex : ViewFilter :=
  { id := 100, view_id := 1, field_id := 21, type := "not_equal", value := "Done" }

/-! ## Helper lemmas -/

theorem mem_insertBy (le : α → α → Bool) (a x : α) (l : List α) :
    x ∈ insertBy le a l ↔ x = a ∨ x ∈ l := by
  induction l with
  | nil => simp [insertBy]
  | cons b l ih =>
    by_cases h : le a b = true
    · simp [insertBy, h]
    · simp only [insertBy, if_neg h, List.mem_cons, ih]
      tauto

theorem mem_sortBy (le : α → α → Bool) (x : α) (l : List α) :
    x ∈ sortBy le l ↔ x ∈ l := by
  induction l with
  | nil => simp [sortBy]
  | cons a l ih => simp [sortBy, mem_insertBy, ih]

/-! ## C9 -/

/-- C9: for every view `v` with zero filters and every query `Q`,
`apply_filters(v, Q)` returns `Q` unchanged — the fold over an empty filter
set is the identity on queries. -/
theorem apply_filters_zero_is_identity (db : Database) (view : View) (q : List Row)
    (h : db.filters.filter (fun f => f.view_id == view.id) = []) :
    ViewHandler.apply_filters db view q = q := by
  unfold ViewHandler.apply_filters
  rw [h]
  rfl

/-- Witness for C9: the form view of the example state has no filters, and
`apply_filters` leaves a concrete query unchanged on it. -/
theorem apply_filters_zero_is_identity_witness :
    dbEx.filters.filter (fun f => f.view_id == v2Ex.id) = [] ∧
    ViewHandler.apply_filters dbEx v2Ex (rowsOfTable dbEx 1) = rowsOfTable dbEx 1 :=
  ⟨by decide, apply_filters_zero_is_identity dbEx v2Ex (rowsOfTable dbEx 1) (by decide)⟩

/-! ## C7 -/

/-- C7: `update_view` never changes the view's type tag — every successful
update preserves the type, and an update attempting to change it fails with
`InvalidRequest` (hence leaves the view unchanged). -/
theorem update_view_type_immutable (view : View) (attrs : ViewUpdateAttrs) :
    (∀ v2, ViewHandler.update_view view attrs = .ok v2 → v2.type = view.type) ∧
    (∀ t, attrs.type = some t → t ≠ view.type →
      ViewHandler.update_view view attrs = .error .invalidRequest) := by
  constructor
  · intro v2 h
    unfold ViewHandler.update_view at h
    split at h
    · split at h
      · cases h
      · cases h
        rfl
    · cases h
      rfl
  · intro t hat hne
    unfold ViewHandler.update_view
    rw [hat]
    simp [hne]

/-- Witness for C7: renaming the grid view succeeds without changing its type,
and trying to turn it into a form view fails with `InvalidRequest`. -/
theorem update_view_type_immutable_witness :
    ({ v1Ex with name := "Renamed" } : View).type = v1Ex.type ∧
    ViewHandler.update_view v1Ex { name := some "X", type := some "form" } =
      .error .invalidRequest :=
  ⟨(update_view_type_immutable v1Ex { name := some "Renamed" }).1
      { v1Ex with name := "Renamed" } (by decide),
   (update_view_type_immutable v1Ex { name := some "X", type := some "form" }).2
      "form" rfl (by decide)⟩

/-! ## C5 -/

/-- C5: `order_views` assigns each listed view the position equal to its index
in the given list in one atomic batch, resets every view of the table omitted
from the list to position 0, leaves views of other tables untouched, and fails
`ViewNotInTable` (changing nothing) when some listed id does not belong to the
table. -/
theorem order_views_spec (db : Database) (table_id : Nat) (view_ids : List Nat) :
    ((∀ i ∈ view_ids, ∃ v ∈ db.views, v.id = i ∧ v.table_id = table_id) →
      ∃ vs2, ViewHandler.order_views db table_id view_ids = .ok vs2 ∧
        vs2.length = db.views.length ∧
        (∀ v ∈ db.views, v.table_id ≠ table_id → v ∈ vs2) ∧
        (∀ v ∈ db.views, v.table_id = table_id →
          ∀ idx, view_ids.findIdx? (fun i => i == v.id) = some idx →
            { v with order := idx } ∈ vs2) ∧
        (∀ v ∈ db.views, v.table_id = table_id →
          view_ids.findIdx? (fun i => i == v.id) = none →
            { v with order := 0 } ∈ vs2)) ∧
    ((∃ i ∈ view_ids, ∀ v ∈ db.views, ¬(v.id = i ∧ v.table_id = table_id)) →
      ViewHandler.order_views db table_id view_ids = .error .viewNotInTable) := by
  constructor
  · intro hall
    have hc : view_ids.all
        (fun i => db.views.any (fun v => v.id == i && v.table_id == table_id)) = true := by
      rw [List.all_eq_true]
      intro i hi
      rw [List.any_eq_true]
      obtain ⟨v, hv, h1, h2⟩ := hall i hi
      exact ⟨v, hv, by simp [h1, h2]⟩
    refine ⟨_, by unfold ViewHandler.order_views; rw [if_pos hc], ?_, ?_, ?_, ?_⟩
    · simp
    · intro v hv hne
      rw [List.mem_map]
      exact ⟨v, hv, by simp [hne]⟩
    · intro v hv htab idx hidx
      rw [List.mem_map]
      exact ⟨v, hv, by simp [htab, hidx]⟩
    · intro v hv htab hidx
      rw [List.mem_map]
      exact ⟨v, hv, by simp [htab, hidx]⟩
  · intro hex
    unfold ViewHandler.order_views
    rw [if_neg]
    intro hall
    obtain ⟨i, hi, hno⟩ := hex
    rw [List.all_eq_true] at hall
    have := hall i hi
    rw [List.any_eq_true] at this
    obtain ⟨v, hv, hb⟩ := this
    simp only [Bool.and_eq_true, beq_iff_eq] at hb
    exact hno v hv ⟨hb.1, hb.2⟩

/-- Witness for C5, the spec's worked example: on a table containing views
1, 2, 3 (and 4, 5), `order_views(table, [3, 1])` yields positions 3 → 0,
1 → 1, 2 → 0. -/
theorem order_views_spec_witness :
    (∀ i ∈ [3, 1], ∃ v ∈ dbEx.views, v.id = i ∧ v.table_id = 1) ∧
    ∃ vs2, ViewHandler.order_views dbEx 1 [3, 1] = .ok vs2 ∧
      { v3Ex with order := 0 } ∈ vs2 ∧ { v1Ex with order := 1 } ∈ vs2 ∧
      { v2Ex with order := 0 } ∈ vs2 := by
  refine ⟨by decide, ?_⟩
  obtain ⟨vs2, hok, _, _, hlisted, homitted⟩ :=
    (order_views_spec dbEx 1 [3, 1]).1 (by decide)
  exact ⟨vs2, hok, hlisted v3Ex (by decide) (by decide) 0 (by decide),
    hlisted v1Ex (by decide) (by decide) 1 (by decide),
    homitted v2Ex (by decide) (by decide) (by decide)⟩

/-! ## C4 -/

/-- C4: for every (view, field) pair at most one sort entry exists —
`create_sort` preserves the pairwise-uniqueness invariant — and a
`create_sort` call on a pair that already has a sort fails with
`SortFieldAlreadyExists` (returning no new state, so the sort set is
unchanged). -/
theorem create_sort_pair_unique (db : Database) (view : View) (field : Field)
    (vt : ViewTypeDescriptor) (direction : String) (new_id : Nat)
    (hvt : getViewType db view.type = some vt)
    (hsort : vt.can_sort = true)
    (htab : field.table_id = view.table_id)
    (hsortable : fieldTypeSortable db field.type = true) :
    ((∃ s ∈ db.sorts, s.view_id = view.id ∧ s.field_id = field.id) →
      ViewHandler.create_sort db view field direction new_id =
        .error .sortFieldAlreadyExists) ∧
    (sortPairUnique db.sorts →
      ∀ sorts2, ViewHandler.create_sort db view field direction new_id = .ok sorts2 →
        sortPairUnique sorts2) := by
  unfold ViewHandler.create_sort
  rw [hvt]
  simp only [hsort, Bool.not_true, Bool.false_eq_true, if_false, htab, bne_self_eq_false,
    hsortable, if_true]
  constructor
  · intro hex
    obtain ⟨s, hs, h1, h2⟩ := hex
    have hany : db.sorts.any (fun s => s.view_id == view.id && s.field_id == field.id)
        = true := by
      rw [List.any_eq_true]
      exact ⟨s, hs, by simp [h1, h2]⟩
    rw [if_pos hany]
  · intro hu sorts2 hok
    by_cases hany : db.sorts.any (fun s => s.view_id == view.id && s.field_id == field.id)
        = true
    · rw [if_pos hany] at hok
      cases hok
    · rw [if_neg hany] at hok
      cases hok
      unfold sortPairUnique
      rw [List.pairwise_append]
      refine ⟨hu, by simp, ?_⟩
      intro a ha b hb
      rw [List.mem_singleton] at hb
      subst hb
      intro hcontra
      exact hany (List.any_eq_true.mpr ⟨a, ha, by simp [hcontra.1, hcontra.2]⟩)

/-- Witness for C4: in the example state a sort on (view 1, field 20) already
exists and a second `create_sort` on that pair fails with
`SortFieldAlreadyExists`. -/
theorem create_sort_pair_unique_witness :
    (∃ s ∈ dbEx.sorts, s.view_id = 1 ∧ s.field_id = 20) ∧
    ViewHandler.create_sort dbEx v1Ex
      { id := 20, table_id := 1, type := "text", primary := true } "ASC" 201 =
      .error .sortFieldAlreadyExists := by
  refine ⟨⟨{ id := 200, view_id := 1, field_id := 20, direction := "ASC" },
    by decide, rfl, rfl⟩, ?_⟩
  exact (create_sort_pair_unique dbEx v1Ex
      { id := 20, table_id := 1, type := "text", primary := true } gridType "ASC" 201
      (by decide) (by decide) (by decide) (by decide)).1
    ⟨{ id := 200, view_id := 1, field_id := 20, direction := "ASC" },
      by decide, rfl, rfl⟩

/-! ## C3 -/

theorem rotatedViews_find_id (views : List View) (i : Nat) (fresh : String) :
    (rotatedViews views i fresh).find? (fun w => w.id == i) =
      (views.find? (fun w => w.id == i)).map
        (fun w => { w with slug := some fresh }) := by
  induction views with
  | nil => rfl
  | cons a l ih =>
    by_cases h : a.id = i
    · simp [rotatedViews, List.find?, h]
    · have h1 : (a.id == i) = false := by simp [h]
      simp only [rotatedViews, List.map_cons, List.find?, h1, Bool.false_eq_true, if_false]
      simpa [rotatedViews] using ih

theorem resolveBySlug_rotated_fresh (views : List View) (v : View) (fresh : String)
    (hv : v ∈ views)
    (hids : ∀ w ∈ views, w.id = v.id → w = v)
    (hfresh : ∀ w ∈ views, w.slug ≠ some fresh) :
    resolveBySlug (rotatedViews views v.id fresh) fresh =
      some { v with slug := some fresh } := by
  induction views with
  | nil => cases hv
  | cons a l ih =>
    by_cases ha : a = v
    · subst ha
      simp [resolveBySlug, rotatedViews, List.find?]
    · have haid : a.id ≠ v.id := fun h => ha (hids a (List.mem_cons_self a l) h)
      have hv' : v ∈ l := by
        rcases List.mem_cons.mp hv with h | h
        · exact absurd h.symm ha
        · exact h
      have h1 : (a.id == v.id) = false := by simp [haid]
      have h2 : (a.slug == some fresh) = false := by
        simpa using hfresh a (List.mem_cons_self a l)
      have step := ih hv' (fun w hw => hids w (List.mem_cons_of_mem a hw))
        (fun w hw => hfresh w (List.mem_cons_of_mem a hw))
      simp only [resolveBySlug, rotatedViews, List.map_cons, List.find?, h1,
        Bool.false_eq_true, if_false, h2] at *
      exact step

/-- C3: for a shareable view, `rotate_view_slug` succeeds; afterwards the
previous slug resolves to nothing, the new slug resolves to the same view, a
second rotation also succeeds and resolves through its own token, and the two
fresh tokens are distinct; on a view of a non-shareable type it fails with
`CannotShareViewType`.  Freshness of the random tokens (global uniqueness) is
a hypothesis. -/
theorem rotate_view_slug_spec (db : Database) (v : View) (vt : ViewTypeDescriptor)
    (s fresh1 fresh2 : String)
    (hvfind : db.views.find? (fun w => w.id == v.id) = some v)
    (hids : ∀ w ∈ db.views, w.id = v.id → w = v)
    (hvt : getViewType db v.type = some vt)
    (hslug : v.slug = some s)
    (huniq : ∀ w ∈ db.views, w.slug = some s → w = v)
    (hfresh1 : ∀ w ∈ db.views, w.slug ≠ some fresh1)
    (hfresh2 : ∀ w ∈ rotatedViews db.views v.id fresh1, w.slug ≠ some fresh2) :
    (vt.can_share = true →
      ViewHandler.rotate_view_slug db v.id fresh1 =
        .ok (rotatedViews db.views v.id fresh1) ∧
      resolveBySlug (rotatedViews db.views v.id fresh1) s = none ∧
      resolveBySlug (rotatedViews db.views v.id fresh1) fresh1 =
        some { v with slug := some fresh1 } ∧
      ViewHandler.rotate_view_slug { db with views := rotatedViews db.views v.id fresh1 }
          v.id fresh2 =
        .ok (rotatedViews (rotatedViews db.views v.id fresh1) v.id fresh2) ∧
      resolveBySlug (rotatedViews (rotatedViews db.views v.id fresh1) v.id fresh2) fresh2 =
        some { v with slug := some fresh2 } ∧
      fresh1 ≠ fresh2) ∧
    (vt.can_share = false →
      ViewHandler.rotate_view_slug db v.id fresh1 = .error .cannotShareViewType) := by
  have hvmem : v ∈ db.views := List.mem_of_find?_eq_some hvfind
  constructor
  · intro hshare
    have hv1 : { v with slug := some fresh1 } ∈ rotatedViews db.views v.id fresh1 := by
      rw [rotatedViews, List.mem_map]
      exact ⟨v, hvmem, by simp⟩
    have hne : fresh1 ≠ fresh2 := by
      intro h
      exact hfresh2 _ hv1 (by simp [h])
    refine ⟨?_, ?_, ?_, ?_, ?_, hne⟩
    · simp only [ViewHandler.rotate_view_slug, hvfind, hvt, hshare, if_true]
    · rw [resolveBySlug, List.find?_eq_none]
      intro w hw
      rw [rotatedViews, List.mem_map] at hw
      obtain ⟨u, hu, hw⟩ := hw
      subst hw
      by_cases huid : u.id = v.id
      · have huv : u = v := hids u hu huid
        have hne2 : s ≠ fresh1 := fun h => hfresh1 v hvmem (h ▸ hslug)
        rw [huv]
        simp [hne2.symm]
      · simp only [beq_iff_eq, if_neg huid]
        have : u.slug ≠ some s := fun h => huid (congrArg View.id (huniq u hu h))
        simpa using this
    · exact resolveBySlug_rotated_fresh db.views v fresh1 hvmem hids hfresh1
    · have hfind2 : (rotatedViews db.views v.id fresh1).find? (fun w => w.id == v.id) =
          some { v with slug := some fresh1 } := by
        rw [rotatedViews_find_id, hvfind]
        rfl
      have hvt2 : getViewType { db with views := rotatedViews db.views v.id fresh1 }
          ({ v with slug := some fresh1 } : View).type = some vt := hvt
      simp only [ViewHandler.rotate_view_slug, hfind2, hvt2, hshare, if_true]
    · have hmemr : { v with slug := some fresh1 } ∈ rotatedViews db.views v.id fresh1 :=
        hv1
      have hidsr : ∀ w ∈ rotatedViews db.views v.id fresh1,
          w.id = ({ v with slug := some fresh1 } : View).id →
          w = { v with slug := some fresh1 } := by
        intro w hw hwid
        rw [rotatedViews, List.mem_map] at hw
        obtain ⟨u, hu, hw⟩ := hw
        subst hw
        by_cases huid : u.id = v.id
        · have huv : u = v := hids u hu huid
          rw [huv]
          simp
        · exfalso
          simp only [beq_iff_eq, if_neg huid] at hwid
          exact huid hwid
      have := resolveBySlug_rotated_fresh (rotatedViews db.views v.id fresh1)
        { v with slug := some fresh1 } fresh2 hmemr hidsr hfresh2
      simpa using this
  · intro hshare
    simp only [ViewHandler.rotate_view_slug, hvfind, hvt, hshare, Bool.false_eq_true,
      if_false]

/-- Witness for C3: rotating the grid view's slug to `f1` invalidates `s1`,
resolves `f1` to the same view, a second rotation to `f2` works and `f2 ≠ f1`;
rotating the non-shareable internal view fails with `CannotShareViewType`. -/
theorem rotate_view_slug_spec_witness :
    (ViewHandler.rotate_view_slug dbEx v1Ex.id "f1" =
        .ok (rotatedViews dbEx.views v1Ex.id "f1") ∧
      resolveBySlug (rotatedViews dbEx.views v1Ex.id "f1") "s1" = none ∧
      resolveBySlug (rotatedViews dbEx.views v1Ex.id "f1") "f1" =
        some { v1Ex with slug := some "f1" } ∧
      ViewHandler.rotate_view_slug { dbEx with views := rotatedViews dbEx.views v1Ex.id "f1" }
          v1Ex.id "f2" =
        .ok (rotatedViews (rotatedViews dbEx.views v1Ex.id "f1") v1Ex.id "f2") ∧
      resolveBySlug (rotatedViews (rotatedViews dbEx.views v1Ex.id "f1") v1Ex.id "f2") "f2" =
        some { v1Ex with slug := some "f2" } ∧
      ("f1" : String) ≠ "f2") ∧
    ViewHandler.rotate_view_slug dbEx v4Ex.id "f1" = .error .cannotShareViewType :=
  ⟨(rotate_view_slug_spec dbEx v1Ex gridType "s1" "f1" "f2" (by decide) (by decide)
      (by decide) rfl (by decide) (by decide) (by decide)).1 rfl,
   (rotate_view_slug_spec dbEx v4Ex internalType "s4" "f1" "f2" (by decide) (by decide)
      (by decide) rfl (by decide) (by decide) (by decide)).2 rfl⟩

/-! ## C8 -/

/-- C8: `update_filter` re-runs the same compatibility checks as
`create_filter` against the (newly supplied or retained) field, filter type
and value — failing with exactly the same error kinds under the same
conditions — and performs a partial update in which only the supplied
attributes change. -/
theorem update_filter_rechecks (db : Database) (view : View) (filt : ViewFilter)
    (attrs : FilterUpdateAttrs) (vt : ViewTypeDescriptor) (f : Field) (new_id : Nat)
    (hvt : getViewType db view.type = some vt)
    (hcf : vt.can_filter = true)
    (hfield : mergedFilterField db filt attrs = some f) :
    (∀ e, ViewHandler.update_filter db view filt attrs = .error e ↔
      ViewHandler.create_filter db view f (attrs.type.getD filt.type)
        (attrs.value.getD filt.value) new_id = .error e) ∧
    (∀ filt2, ViewHandler.update_filter db view filt attrs = .ok filt2 →
      filt2.id = filt.id ∧ filt2.view_id = filt.view_id ∧
      (∀ fA, attrs.field = some fA → filt2.field_id = fA.id) ∧
      (attrs.field = none → filt2.field_id = filt.field_id) ∧
      (∀ t, attrs.type = some t → filt2.type = t) ∧
      (attrs.type = none → filt2.type = filt.type) ∧
      (∀ s, attrs.value = some s → filt2.value = s) ∧
      (attrs.value = none → filt2.value = filt.value)) := by
  constructor
  · intro e
    simp only [ViewHandler.update_filter, hfield, ViewHandler.create_filter, hvt, hcf,
      Bool.not_true, Bool.false_eq_true, if_false]
    cases hc : filterCompatChecks db view f (attrs.type.getD filt.type) with
    | some e2 => simp
    | none => simp
  · intro filt2 hok
    simp only [ViewHandler.update_filter, hfield] at hok
    cases hc : filterCompatChecks db view f (attrs.type.getD filt.type) with
    | some e2 =>
      rw [hc] at hok
      cases hok
    | none =>
      rw [hc] at hok
      cases hok
      refine ⟨rfl, rfl, ?_, ?_, ?_, ?_, ?_, ?_⟩
      · intro fA hfa
        have hf : f = fA := by
          rw [mergedFilterField, hfa] at hfield
          exact (Option.some_injective _ hfield).symm
        rw [hf]
      · intro hnone
        have h2 : getField db filt.field_id = some f := by
          rw [mergedFilterField, hnone] at hfield
          exact hfield
        rw [getField] at h2
        have h3 := List.find?_some h2
        simpa using h3
      · intro t ht
        simp [ht]
      · intro ht
        simp [ht]
      · intro s hs
        simp [hs]
      · intro hs
        simp [hs]

/-- Witness for C8: updating the example filter's type to `not_equal` on the
grid view succeeds, changes only the type, and fails exactly when the
corresponding `create_filter` on the merged attributes fails. -/
theorem update_filter_rechecks_witness :
    (ViewHandler.update_filter dbEx v1Ex filtEx attrsEx = .error .filterNotSupported ↔
      ViewHandler.create_filter dbEx v1Ex field21Ex "not_equal" "Done" 0 =
        .error .filterNotSupported) ∧
    ViewHandler.update_filter dbEx v1Ex filtEx attrsEx = .ok filt2Ex ∧
    filt2Ex.type = "not_equal" ∧ filt2Ex.value = filtEx.value := by
  have h := update_filter_rechecks dbEx v1Ex filtEx attrsEx gridType field21Ex 0
    (by decide) (by decide) (by decide)
  have hok := h.2 filt2Ex (by decide)
  exact ⟨h.1 .filterNotSupported, by decide, hok.2.2.2.2.1 "not_equal" rfl,
    hok.2.2.2.2.2.2.2 rfl⟩

/-! ## C2 -/

/-- C2: for every slug, caller and requested field, the public lookup fails
with the `ViewNotFound` kind whenever the resolved view's type does not permit
sharing, even though the slug resolves to an existing view — and the error is
the very same value produced when a slug does not resolve at all, so the two
cases are indistinguishable. -/
theorem public_lookup_unshareable_hidden (db : Database) (slug : String)
    (field_id : Nat) (search : Option String) (v : View) (vt : ViewTypeDescriptor)
    (hv : resolveBySlug db.views slug = some v)
    (hvt : getViewType db v.type = some vt)
    (hshare : vt.can_share = false) :
    PublicViewLinkRowFieldLookupView.get db slug field_id search =
      .error .viewNotFound ∧
    ∀ db2 s2, resolveBySlug db2.views s2 = none →
      PublicViewLinkRowFieldLookupView.get db2 s2 field_id search =
        .error .viewNotFound := by
  constructor
  · simp [PublicViewLinkRowFieldLookupView.get, ViewHandler.get_public_view_by_slug,
      hv, hvt, hshare]
  · intro db2 s2 h2
    simp [PublicViewLinkRowFieldLookupView.get, ViewHandler.get_public_view_by_slug, h2]

/-- Witness for C2: the internal view's slug `s4` resolves but its type is not
shareable, and the lookup's error equals the one for the unknown slug `zzz`. -/
theorem public_lookup_unshareable_hidden_witness :
    PublicViewLinkRowFieldLookupView.get dbEx "s4" 10 none = .error .viewNotFound ∧
    PublicViewLinkRowFieldLookupView.get dbEx "zzz" 10 none = .error .viewNotFound :=
  ⟨(public_lookup_unshareable_hidden dbEx "s4" 10 none v4Ex internalType (by decide)
      (by decide) (by decide)).1,
   (public_lookup_unshareable_hidden dbEx "s4" 10 none v4Ex internalType (by decide)
      (by decide) (by decide)).2 dbEx "zzz" (by decide)⟩

/-! ## C6 -/

/-- C6: the public lookup fails with the `FieldNotFound` kind whenever the
requested field id does not denote a link-type field currently exposed
(visible, in order) by the view's field options — in particular when it
denotes a non-link field of the view or a link field hidden by the options. -/
theorem public_lookup_field_not_exposed (db : Database) (slug : String)
    (field_id : Nat) (search : Option String) (v : View) (vt : ViewTypeDescriptor)
    (hv : resolveBySlug db.views slug = some v)
    (hvt : getViewType db v.type = some vt)
    (hshare : vt.can_share = true)
    (hnone : ∀ o ∈ db.field_options, o.view_id = v.id → o.hidden = false →
      o.field_id = field_id → isLinkRowField db field_id = false) :
    PublicViewLinkRowFieldLookupView.get db slug field_id search =
      .error .fieldNotFound := by
  have hfind : (get_visible_field_options_in_order db v).find?
      (fun o => o.field_id == field_id && isLinkRowField db o.field_id) = none := by
    rw [List.find?_eq_none]
    intro o ho
    rw [get_visible_field_options_in_order, mem_sortBy, List.mem_filter] at ho
    obtain ⟨hmem, hcond⟩ := ho
    simp only [Bool.and_eq_true, beq_iff_eq, Bool.not_eq_true'] at hcond
    intro hp
    simp only [Bool.and_eq_true, beq_iff_eq] at hp
    have hlink := hnone o hmem hcond.1 hcond.2 hp.1
    rw [hp.1, hlink] at hp
    exact absurd hp.2 (by simp)
  have hexp : exposedLinkFieldOption db v field_id = none := by
    rw [exposedLinkFieldOption, hfind]
  simp [PublicViewLinkRowFieldLookupView.get, ViewHandler.get_public_view_by_slug,
    hv, hvt, hshare, hexp]

/-- Witness for C6: on the grid view, requesting the visible non-link field 20,
the hidden field 21 and the nonexistent field 99 all fail with
`FieldNotFound`. -/
theorem public_lookup_field_not_exposed_witness :
    PublicViewLinkRowFieldLookupView.get dbEx "s1" 20 none = .error .fieldNotFound ∧
    PublicViewLinkRowFieldLookupView.get dbEx "s1" 21 none = .error .fieldNotFound ∧
    PublicViewLinkRowFieldLookupView.get dbEx "s1" 99 none = .error .fieldNotFound :=
  ⟨public_lookup_field_not_exposed dbEx "s1" 20 none v1Ex gridType (by decide)
      (by decide) (by decide) (by decide),
   public_lookup_field_not_exposed dbEx "s1" 21 none v1Ex gridType (by decide)
      (by decide) (by decide) (by decide),
   public_lookup_field_not_exposed dbEx "s1" 99 none v1Ex gridType (by decide)
      (by decide) (by decide) (by decide)⟩

/-! ## C1 -/

theorem lookup_ok_unfold (db : Database) (slug : String) (field_id : Nat)
    (search : Option String) (v : View) (vt : ViewTypeDescriptor) (f : Field)
    (hv : resolveBySlug db.views slug = some v)
    (hvt : getViewType db v.type = some vt)
    (hshare : vt.can_share = true)
    (hf : exposedLinkFieldOption db v field_id = some f) :
    PublicViewLinkRowFieldLookupView.get db slug field_id search =
      .ok (((if vt.restrict_link_row_public_view_sharing then
          (rowsOfTable db f.link_row_table_id).filter (fun t =>
            ((if vt.can_filter then
                ViewHandler.apply_filters db v (rowsOfTable db v.table_id)
              else rowsOfTable db v.table_id).flatMap
                (fun r => linkIdsOf r f.id)).contains t.id)
        else rowsOfTable db f.link_row_table_id).filter
          (fun t => searchPasses db f.link_row_table_id search t)).map
          (fun t => (t.id, primaryValue db f.link_row_table_id t))) := by
  simp [PublicViewLinkRowFieldLookupView.get, ViewHandler.get_public_view_by_slug,
    hv, hvt, hshare, hf]

/-- C1: on a public link-row lookup through a view whose type restricts
link-row sharing, the returned id set is exactly the set of target-table row
ids reachable through the link field from the source view's row set — the
filtered row set when the view's type permits filtering, the unfiltered row
set of the source table when it does not; when the type does not restrict,
every row of the target table is returned subject only to the optional search
narrowing. -/
theorem public_lookup_restricted_id_set (db : Database) (slug : String) (field_id : Nat)
    (v : View) (vt : ViewTypeDescriptor) (f : Field)
    (hv : resolveBySlug db.views slug = some v)
    (hvt : getViewType db v.type = some vt)
    (hshare : vt.can_share = true)
    (hf : exposedLinkFieldOption db v field_id = some f) :
    (vt.restrict_link_row_public_view_sharing = true → vt.can_filter = true →
      ∀ res, PublicViewLinkRowFieldLookupView.get db slug field_id none = .ok res →
      ∀ tid, tid ∈ res.map Prod.fst ↔
        ((∃ t ∈ rowsOfTable db f.link_row_table_id, t.id = tid) ∧
         ∃ r ∈ ViewHandler.apply_filters db v (rowsOfTable db v.table_id),
           tid ∈ linkIdsOf r f.id)) ∧
    (vt.restrict_link_row_public_view_sharing = true → vt.can_filter = false →
      ∀ res, PublicViewLinkRowFieldLookupView.get db slug field_id none = .ok res →
      ∀ tid, tid ∈ res.map Prod.fst ↔
        ((∃ t ∈ rowsOfTable db f.link_row_table_id, t.id = tid) ∧
         ∃ r ∈ rowsOfTable db v.table_id, tid ∈ linkIdsOf r f.id)) ∧
    (vt.restrict_link_row_public_view_sharing = false →
      ∀ s res, PublicViewLinkRowFieldLookupView.get db slug field_id s = .ok res →
      ∀ tid, tid ∈ res.map Prod.fst ↔
        ∃ t ∈ rowsOfTable db f.link_row_table_id,
          t.id = tid ∧ searchPasses db f.link_row_table_id s t = true) := by
  refine ⟨?_, ?_, ?_⟩
  · intro hres hcf res hok tid
    rw [lookup_ok_unfold db slug field_id none v vt f hv hvt hshare hf] at hok
    rw [hres, hcf] at hok
    injection hok with hok
    subst hok
    simp only [if_true, List.map_map, List.mem_map, Function.comp, List.mem_filter,
      searchPasses, List.mem_flatMap]
    constructor
    · rintro ⟨t, ⟨⟨ht, hcont⟩, -⟩, rfl⟩
      rw [List.contains_iff_exists_mem_beq] at hcont
      obtain ⟨a, ha, hab⟩ := hcont
      rw [List.mem_flatMap] at ha
      obtain ⟨r, hr, hra⟩ := ha
      rw [beq_iff_eq] at hab
      subst hab
      exact ⟨⟨t, ht, rfl⟩, r, hr, hra⟩
    · rintro ⟨⟨t, ht, rfl⟩, r, hr, hra⟩
      refine ⟨t, ⟨⟨ht, ?_⟩, trivial⟩, rfl⟩
      rw [List.contains_iff_exists_mem_beq]
      exact ⟨t.id, List.mem_flatMap.mpr ⟨r, hr, hra⟩, by simp⟩
  · intro hres hcf res hok tid
    rw [lookup_ok_unfold db slug field_id none v vt f hv hvt hshare hf] at hok
    rw [hres, hcf] at hok
    injection hok with hok
    subst hok
    simp only [if_true, Bool.false_eq_true, if_false, List.map_map, List.mem_map,
      Function.comp, List.mem_filter, searchPasses, List.mem_flatMap]
    constructor
    · rintro ⟨t, ⟨⟨ht, hcont⟩, -⟩, rfl⟩
      rw [List.contains_iff_exists_mem_beq] at hcont
      obtain ⟨a, ha, hab⟩ := hcont
      rw [List.mem_flatMap] at ha
      obtain ⟨r, hr, hra⟩ := ha
      rw [beq_iff_eq] at hab
      subst hab
      exact ⟨⟨t, ht, rfl⟩, r, hr, hra⟩
    · rintro ⟨⟨t, ht, rfl⟩, r, hr, hra⟩
      refine ⟨t, ⟨⟨ht, ?_⟩, trivial⟩, rfl⟩
      rw [List.contains_iff_exists_mem_beq]
      exact ⟨t.id, List.mem_flatMap.mpr ⟨r, hr, hra⟩, by simp⟩
  · intro hres s res hok tid
    rw [lookup_ok_unfold db slug field_id s v vt f hv hvt hshare hf] at hok
    rw [hres] at hok
    injection hok with hok
    subst hok
    simp only [Bool.false_eq_true, if_false, List.map_map, List.mem_map, Function.comp,
      List.mem_filter]
    constructor
    · rintro ⟨t, ⟨ht, hs⟩, rfl⟩
      exact ⟨t, ht, rfl, hs⟩
    · rintro ⟨t, ht, rfl, hs⟩
      exact ⟨t, ⟨ht, hs⟩, rfl⟩

/-- Witness for C1: in the example state the restricted grid view exposes
exactly the target row linked from its filtered rows (601, not 602); the
non-filterable form view exposes rows linked from all source rows (602 too);
the unrestricting gallery view exposes even the unlinked row 603, narrowed by
search. -/
theorem public_lookup_restricted_id_set_witness :
    (∃ res, PublicViewLinkRowFieldLookupView.get dbEx "s1" 10 none = .ok res ∧
      (601 ∈ res.map Prod.fst) ∧ ¬(602 ∈ res.map Prod.fst)) ∧
    (∃ res, PublicViewLinkRowFieldLookupView.get dbEx "s2" 10 none = .ok res ∧
      (602 ∈ res.map Prod.fst) ∧ ¬(603 ∈ res.map Prod.fst)) ∧
    (∃ res, PublicViewLinkRowFieldLookupView.get dbEx "s3" 10 none = .ok res ∧
      603 ∈ res.map Prod.fst) := by
  refine ⟨⟨[(601, "X")], by decide, ?_, ?_⟩, ⟨[(601, "X"), (602, "Y")], by decide, ?_, ?_⟩,
    ⟨[(601, "X"), (602, "Y"), (603, "Z")], by decide, ?_⟩⟩
  · exact ((public_lookup_restricted_id_set dbEx "s1" 10 v1Ex gridType
      { id := 10, table_id := 1, type := "link_row", link_row_table_id := 2 }
      (by decide) (by decide) (by decide) (by decide)).1 rfl rfl [(601, "X")]
      (by decide) 601).mpr (by decide)
  · intro hmem
    have h := ((public_lookup_restricted_id_set dbEx "s1" 10 v1Ex gridType
      { id := 10, table_id := 1, type := "link_row", link_row_table_id := 2 }
      (by decide) (by decide) (by decide) (by decide)).1 rfl rfl [(601, "X")]
      (by decide) 602).mp hmem
    revert h
    decide
  · exact ((public_lookup_restricted_id_set dbEx "s2" 10 v2Ex formType
      { id := 10, table_id := 1, type := "link_row", link_row_table_id := 2 }
      (by decide) (by decide) (by decide) (by decide)).2.1 rfl rfl
      [(601, "X"), (602, "Y")] (by decide) 602).mpr (by decide)
  · intro hmem
    have h := ((public_lookup_restricted_id_set dbEx "s2" 10 v2Ex formType
      { id := 10, table_id := 1, type := "link_row", link_row_table_id := 2 }
      (by decide) (by decide) (by decide) (by decide)).2.1 rfl rfl
      [(601, "X"), (602, "Y")] (by decide) 603).mp hmem
    revert h
    decide
  · exact ((public_lookup_restricted_id_set dbEx "s3" 10 v3Ex galleryType
      { id := 10, table_id := 1, type := "link_row", link_row_table_id := 2 }
      (by decide) (by decide) (by decide) (by decide)).2.2 rfl none
      [(601, "X"), (602, "Y"), (603, "Z")] (by decide) 603).mpr (by decide)

/-! ## C10 -/

/-- Counterexample to C10 as stated: with a self-linking table (the link field
of the grid view's table points back at that same table) and a filter on a
non-primary field, two states that agree on every row's id, table, link values
and primary-field value — differing only in the non-primary field 21 of row 1
— produce different lookup responses, because the view's filters read that
non-primary value when computing the restriction set. -/
theorem public_lookup_nonprimary_dependence_counterexample :
    (dbSelfB.view_types = dbSelfA.view_types ∧
     dbSelfB.field_types = dbSelfA.field_types ∧
     dbSelfB.filter_types = dbSelfA.filter_types ∧
     dbSelfB.views = dbSelfA.views ∧
     dbSelfB.fields = dbSelfA.fields ∧
     dbSelfB.field_options = dbSelfA.field_options ∧
     dbSelfB.filters = dbSelfA.filters ∧
     dbSelfB.sorts = dbSelfA.sorts ∧
     dbSelfB.rows.map Row.id = dbSelfA.rows.map Row.id ∧
     dbSelfB.rows.map Row.table_id = dbSelfA.rows.map Row.table_id ∧
     dbSelfB.rows.map Row.link_values = dbSelfA.rows.map Row.link_values ∧
     dbSelfB.rows.map (primaryValue dbSelfA 1) =
       dbSelfA.rows.map (primaryValue dbSelfA 1)) ∧
    PublicViewLinkRowFieldLookupView.get dbSelfB "s" 10 none ≠
      PublicViewLinkRowFieldLookupView.get dbSelfA "s" 10 none := by
  decide

/-- C10 (amended): the lookup serializes only the target row's id and
primary-field value, so — provided the target table is distinct from the
view's own table — rewriting the stored rows in any way that preserves each
row's id, table and primary-field value and does not touch rows of other
tables leaves the response unchanged (search absent).  (For a self-linking
view the restriction set may read non-primary values through the view's
filters, as the counterexample shows.) -/
theorem public_lookup_nonprimary_independent (db : Database) (h : Row → Row)
    (slug : String) (field_id : Nat) (v : View) (vt : ViewTypeDescriptor) (f : Field)
    (hv : resolveBySlug db.views slug = some v)
    (hvt : getViewType db v.type = some vt)
    (hshare : vt.can_share = true)
    (hf : exposedLinkFieldOption db v field_id = some f)
    (hT : f.link_row_table_id ≠ v.table_id)
    (hid : ∀ r, (h r).id = r.id)
    (htab : ∀ r, (h r).table_id = r.table_id)
    (hother : ∀ r, r.table_id ≠ f.link_row_table_id → h r = r)
    (hprim : ∀ r, primaryValue db f.link_row_table_id (h r) =
      primaryValue db f.link_row_table_id r) :
    PublicViewLinkRowFieldLookupView.get { db with rows := db.rows.map h } slug
        field_id none =
      PublicViewLinkRowFieldLookupView.get db slug field_id none := by
  have hv2 : resolveBySlug ({ db with rows := db.rows.map h } : Database).views slug =
      some v := hv
  have hvt2 : getViewType { db with rows := db.rows.map h } v.type = some vt := hvt
  have hf2 : exposedLinkFieldOption { db with rows := db.rows.map h } v field_id =
      some f := hf
  rw [lookup_ok_unfold { db with rows := db.rows.map h } slug field_id none v vt f
      hv2 hvt2 hshare hf2,
    lookup_ok_unfold db slug field_id none v vt f hv hvt hshare hf]
  have hrot : ∀ t, rowsOfTable { db with rows := db.rows.map h } t =
      (rowsOfTable db t).map h := by
    intro t
    show (db.rows.map h).filter (fun r => r.table_id == t) = _
    rw [List.filter_map]
    congr 1
    apply List.filter_congr
    intro r _
    simp [Function.comp, htab r]
  have hsrc : rowsOfTable { db with rows := db.rows.map h } v.table_id =
      rowsOfTable db v.table_id := by
    rw [hrot]
    conv_rhs => rw [← List.map_id (rowsOfTable db v.table_id)]
    apply List.map_congr_left
    intro r hr
    have hrt : r.table_id = v.table_id := by
      rw [rowsOfTable] at hr
      simpa using (List.mem_filter.mp hr).2
    exact hother r (fun hh => hT (by rw [← hh]; exact hrt))
  have happ : ViewHandler.apply_filters { db with rows := db.rows.map h } v
      (rowsOfTable { db with rows := db.rows.map h } v.table_id) =
      ViewHandler.apply_filters db v (rowsOfTable db v.table_id) := by
    rw [hsrc]
    rfl
  have hfc : ∀ ids : List Nat,
      ((rowsOfTable db f.link_row_table_id).map h).filter (fun t => ids.contains t.id) =
      ((rowsOfTable db f.link_row_table_id).filter (fun t => ids.contains t.id)).map h := by
    intro ids
    rw [List.filter_map]
    congr 1
    apply List.filter_congr
    intro r _
    simp [Function.comp, hid r]
  congr 1
  rw [hrot f.link_row_table_id, happ, hsrc, hfc]
  rw [← apply_ite (List.map h) (vt.restrict_link_row_public_view_sharing = true)]
  simp only [searchPasses, List.filter_true]
  rw [List.map_map]
  apply List.map_congr_left
  intro t _
  have hpv : primaryValue { db with rows := db.rows.map h } f.link_row_table_id (h t) =
      primaryValue db f.link_row_table_id (h t) := rfl
  simp [Function.comp, hid t, hpv, hprim t]

/-- Witness for the amended C10: applied to the example state with the
identity rewriting of rows (which trivially preserves ids, tables and primary
values), the grid view's lookup is unchanged. -/
theorem public_lookup_nonprimary_independent_witness :
    PublicViewLinkRowFieldLookupView.get { dbEx with rows := dbEx.rows.map id } "s1"
        10 none =
      PublicViewLinkRowFieldLookupView.get dbEx "s1" 10 none :=
  public_lookup_nonprimary_independent dbEx id "s1" 10 v1Ex gridType
    { id := 10, table_id := 1, type := "link_row", link_row_table_id := 2 }
    (by decide) (by decide) (by decide) (by decide) (by decide)
    (fun r => rfl) (fun r => rfl) (fun r _ => rfl) (fun r => rfl)

end Baserow
